import Mathlib

/-!
Shallow embedding of the analysis pipeline in `src/app.py` (a Streamlit
GitHub-repository code analyzer).  Python dictionaries are modelled as
association lists over a JSON value type; fallible operations (file system
access, the generation service, `json.loads`) are modelled as `Except`
valued oracles; string scanning is done over `List Char` with ASCII
approximations of Python str semantics (noted where relevant).
-/

namespace RepoAnalyzer

/-- JSON / Python value universe: the payloads stored in the per-file result
dictionaries.  `num` carries a rational, covering Python int and float. -/
inductive JVal where
  | null
  | jbool (b : Bool)
  | num (q : ℚ)
  | str (s : String)
  | arr (xs : List JVal)
  | obj (kvs : List (String × JVal))

/-- A Python dict with string keys, as an association list. -/
abbrev Dict := List (String × JVal)

/-- Dict lookup: `d[k]` / `d.get(k)` — first binding wins. -/
def dictLookup (d : Dict) (k : String) : Option JVal :=
  (d.find? (fun p => p.1 == k)).map (fun p => p.2)

/-- Dict assignment `d[k] = v`: replace the binding in place when the key is
present, append otherwise (Python dict update semantics). -/
def dictSet (d : Dict) (k : String) (v : JVal) : Dict :=
  if d.any (fun p => p.1 == k) then
    d.map (fun p => if p.1 == k then (k, v) else p)
  else d ++ [(k, v)]

/-- ASCII lower-casing of one character (models `str.lower` on the ASCII
range, which is all the heuristic signals use). -/
def lcChar (c : Char) : Char :=
  if 'A' ≤ c && c ≤ 'Z' then Char.ofNat (c.toNat + 32) else c

/-- Models Python `s.lower()` (ASCII range). -/
def pyLower (s : String) : String := String.mk (s.toList.map lcChar)

/-- Boolean substring search on character lists. -/
def containsSub (needle : List Char) : List Char → Bool
  | [] => needle.isEmpty
  | c :: t => needle.isPrefixOf (c :: t) || containsSub needle t

/-- Models the Python membership test `needle in hay` on strings. -/
def pyIn (needle hay : String) : Bool := containsSub needle.toList hay.toList

/-- Python `\s` on the ASCII range: space, tab, newline, carriage return,
vertical tab, form feed. -/
def pyIsSpace (c : Char) : Bool :=
  c = ' ' || c = '\t' || c = '\n' || c = '\r' || c = '\x0b' || c = '\x0c'

/-- Python `\w` on the ASCII range (used for the `\b` word boundary). -/
def pyIsWord (c : Char) : Bool := c.isAlphanum || c = '_'

/-- Models Python `s.strip()` (ASCII whitespace). -/
def pyStrip (s : String) : String :=
  String.mk (((s.toList.dropWhile pyIsSpace).reverse.dropWhile pyIsSpace).reverse)

/-- Number of lines as counted by `len(code.splitlines())`, restricted to
the `\n` separator: 0 for the empty string, otherwise one line per newline
plus a final unterminated line. -/
def splitlinesCount (s : String) : Nat :=
  if s.isEmpty then 0
  else s.toList.countP (fun c => c = '\n') +
    (if s.toList.getLast? = some '\n' then 0 else 1)

/-!
Backtracking matcher for the fixed regular expression
`\bfor\s+.*:\s*\n\s*for\s+` used three times in `heuristic_analyze`
(`re.search`, no DOTALL, so `.` excludes `\n` while `\s` includes it).
Each combinator takes the continuation `p` and tries every split point,
which decides existence of a match exactly.
-/

/-- Matches `\s*` and then the continuation, trying every split. -/
def wsStarThen (p : List Char → Bool) : List Char → Bool
  | [] => p []
  | c :: rest => p (c :: rest) || (pyIsSpace c && wsStarThen p rest)

/-- Matches `.*` (no newline) and then the continuation, trying every split. -/
def dotStarThen (p : List Char → Bool) : List Char → Bool
  | [] => p []
  | c :: rest => p (c :: rest) || (c ≠ '\n' && dotStarThen p rest)

/-- Matches a literal character and then the continuation. -/
def litThen (ch : Char) (p : List Char → Bool) : List Char → Bool
  | [] => false
  | c :: rest => c = ch && p rest

/-- Matches the literal `for` and then the continuation. -/
def forThen (p : List Char → Bool) : List Char → Bool :=
  litThen 'f' (litThen 'o' (litThen 'r' p))

/-- Matches one `\s` (the trailing `\s+` of the pattern needs one witness). -/
def oneWS : List Char → Bool
  | [] => false
  | c :: _ => pyIsSpace c

/-- What must follow the first `for`: `\s+.*:\s*\n\s*for\s+`
(`\s+ ≡ \s\s*`). -/
def afterFor : List Char → Bool
  | [] => false
  | c :: rest =>
    pyIsSpace c &&
      wsStarThen (dotStarThen (litThen ':'
        (wsStarThen (litThen '\n' (wsStarThen (forThen oneWS)))))) rest

/-- Scan for a match of the whole pattern at any position; `prev` is the
character before the current suffix, for the `\b` word boundary. -/
def nestedLoopAux (prev : Option Char) : List Char → Bool
  | [] => false
  | c :: rest =>
    (match prev with
     | none => true
     | some pc => !pyIsWord pc) && forThen afterFor (c :: rest)
    || nestedLoopAux (some c) rest

/-- Models `re.search(r"\bfor\s+.*:\s*\n\s*for\s+", code)` as a Boolean. -/
def nestedLoop (code : String) : Bool := nestedLoopAux none code.toList

/-- Models `os.path.basename`: the part after the last slash. -/
def basename (p : String) : String :=
  String.mk ((p.toList.reverse.takeWhile (fun c => c ≠ '/')).reverse)

/-!  The heuristic fallback analyzer, `heuristic_analyze` (app.py 123-178). -/

/-- Base quality score (app.py 129-142): start at 70; unfinished-work
markers minus 20; print without logging minus 5; more than 500 lines minus
10; nested-loop pattern minus 15; test-framework references plus 5; clamp
to [10, 95]. -/
def heuristicBase (code : String) : Int :=
  let text := pyLower code
  let b : Int := 70
  let b := if pyIn "todo" text || pyIn "pass" text || pyIn "notimplementederror" text
    then b - 20 else b
  let b := if pyIn "print(" text && !pyIn "logging" text then b - 5 else b
  let b := if splitlinesCount code > 500 then b - 10 else b
  let b := if nestedLoop code then b - 15 else b
  let b := if pyIn "import unittest" text || pyIn "pytest" text then b + 5 else b
  max 10 (min 95 b)

/-- Sub-score clamp `max(5, min(100, x))` (app.py 144-146). -/
def clampScore (x : Int) : Int := max 5 (min 100 x)

/-- `correctness_score = max(5, min(100, int(base - 5)))` (app.py 144). -/
def correctnessScore (code : String) : Int := clampScore (heuristicBase code - 5)

/-- `efficiency_score`: base minus 10 when the nested-loop pattern matches,
else base minus 5, clamped (app.py 145). -/
def efficiencyScore (code : String) : Int :=
  clampScore (heuristicBase code - (if nestedLoop code then 10 else 5))

/-- Documentation / function-definition markers checked on the raw code
(app.py 146): a triple double quote, a triple single quote followed by a
space, or `def `. -/
def docMarkers (code : String) : Bool :=
  pyIn "\"\"\"" code || pyIn "\x27\x27\x27 " code || pyIn "def " code

/-- `best_practices_score`: base plus 5 when doc markers are present,
clamped (app.py 146). -/
def bestPracticesScore (code : String) : Int :=
  clampScore (heuristicBase code + (if docMarkers code then 5 else 0))

/-- `overall_score = int(round(sum / 3.0))` (app.py 148).  The sum of three
integers divided by 3 is never a half, so round-to-nearest is unambiguous;
`(2 * s + 3) / 6` computes it exactly (all values positive). -/
def overallScore (code : String) : Int :=
  (2 * (correctnessScore code + efficiencyScore code + bestPracticesScore code) + 3) / 6

/-- Issue strings accumulated by `heuristic_analyze` (app.py 150-167). -/
def heuristicIssues (code : String) : List String :=
  let text := pyLower code
  let l :=
    (if pyIn "todo" text then ["TODO markers left"] else []) ++
    (if pyIn "pass" text || pyIn "notimplementederror" text
      then ["Empty function(s) or NotImplemented"] else []) ++
    (if nestedLoop code then ["Nested loops (possible inefficiency)"] else []) ++
    (if pyIn "print(" text && !pyIn "logging" text
      then ["Direct print statements (not logger)"] else [])
  if l.isEmpty then ["No obvious issues found by heuristic"] else l

/-- Recommendation strings accumulated alongside the issues (app.py 150-167). -/
def heuristicRecs (code : String) : List String :=
  let text := pyLower code
  let l :=
    (if pyIn "todo" text then ["Resolve TODOs and implement missing functionality"] else []) ++
    (if pyIn "pass" text || pyIn "notimplementederror" text
      then ["Implement function bodies"] else []) ++
    (if nestedLoop code
      then ["Consider algorithmic optimizations or use vectorized operations"] else []) ++
    (if pyIn "print(" text && !pyIn "logging" text
      then ["Use logging module for production code"] else [])
  if l.isEmpty then ["Run tests and unit tests to confirm correctness"] else l

/-- The full heuristic result dict (app.py 169-178). -/
def heuristic_analyze (code : String) (file_name : String) : Dict :=
  [("file_name", JVal.str (basename file_name)),
   ("correctness_score", JVal.num (correctnessScore code)),
   ("efficiency_score", JVal.num (efficiencyScore code)),
   ("best_practices_score", JVal.num (bestPracticesScore code)),
   ("overall_score", JVal.num (overallScore code)),
   ("key_issues", JVal.arr ((heuristicIssues code).map JVal.str)),
   ("recommendations", JVal.arr ((heuristicRecs code).map JVal.str)),
   ("analysis_source", JVal.str "heuristic")]

/-!
The response extractor `extract_json_from_text` (app.py 88-121).  The
`json.loads` library call is an oracle `loads : String → Except String JVal`
(`.error` models a raised exception); every call site wraps it in
try/except, and the theorem for the extraction boundary shows no `.error`
escapes.
-/

/-- Case-insensitive prefix test: `needle` (given lower-case) against the
lower-cased head of `hay` (models the `re.I` flag). -/
def prefixCI : List Char → List Char → Bool
  | [], _ => true
  | _ :: _, [] => false
  | n :: ns, h :: hs => lcChar h = n && prefixCI ns hs

/-- Index of the first case-insensitive occurrence of `needle` in `hay`. -/
def findCI (needle : List Char) : List Char → Option Nat
  | [] => if needle.isEmpty then some 0 else none
  | c :: t =>
    if prefixCI needle (c :: t) then some 0
    else (findCI needle t).map (fun i => i + 1)

/-- Length of the prefix of `l` scanned until the brace depth returns to
zero at a closing brace, as in the inner loop of app.py 104-111; `none`
when the depth never returns to zero. -/
def balancedLen : List Char → Int → Nat → Option Nat
  | [], _, _ => none
  | c :: rest, depth, count =>
    let depth := if c = '{' then depth + 1 else if c = '}' then depth - 1 else depth
    if c = '}' && depth = 0 then some (count + 1)
    else balancedLen rest depth (count + 1)

/-- All positions of an opening brace (app.py 102). -/
def bracePositions (t : List Char) : List Nat :=
  (List.range t.length).filter (fun i => t.getD i ' ' = '{')

/-- The loop over opening-brace positions (app.py 103-116): grow a balanced
candidate from each start; a parse failure breaks to the next start. -/
def tryStarts (loads : String → Except String JVal) (t : List Char) :
    List Nat → Option JVal
  | [] => none
  | s :: rest =>
    match balancedLen (t.drop s) 0 0 with
    | none => tryStarts loads t rest
    | some len =>
      match loads (String.mk ((t.drop s).take len)) with
      | Except.ok v => some v
      | Except.error _ => tryStarts loads t rest

/-- The fenced-block strategy (app.py 93-99): leftmost ` ```json ` (case
insensitive) with a later closing fence; parse the stripped inside. -/
def fencedCandidate (t : List Char) : Option String :=
  match findCI "```json".toList t with
  | none => none
  | some i =>
    let rest := t.drop (i + 7)
    match findCI "```".toList rest with
    | none => none
    | some j => some (pyStrip (String.mk (rest.take j)))

/-- Models `extract_json_from_text` (app.py 88-121).  The input is `none`
for a `None` / falsy / non-string argument and `some t` for the string `t`;
the result is `.ok (some v)` for a parsed value, `.ok none` for the `None`
returns, and `.error` would be a propagated exception. -/
def extract_json_from_text (loads : String → Except String JVal)
    (text : Option String) : Except String (Option JVal) :=
  match text with
  | none => Except.ok none
  | some t =>
    if t = "" then Except.ok none
    else
      let tl := t.toList
      let viaFence : Option JVal :=
        match fencedCandidate tl with
        | none => none
        | some cand =>
          match loads cand with
          | Except.ok v => some v
          | Except.error _ => none
      match viaFence with
      | some v => Except.ok (some v)
      | none =>
        match tryStarts loads tl (bracePositions tl) with
        | some v => Except.ok (some v)
        | none =>
          match loads (pyStrip t) with
          | Except.ok v => Except.ok (some v)
          | Except.error _ => Except.ok none

/-!
The generation-service adapter `safe_generate` (app.py 46-86).  The
response object is opaque; each attribute probe the code performs is an
oracle that can yield a value or raise (`Except.error`).
-/

/-- One element of a candidate content list, collapsed to what the loop of
app.py 72-76 plus the final join observes: a contributed text, a skipped
element, or an exception (attribute access raising, or a non-string
contribution making the join raise). -/
inductive Part where
  | text (s : String)
  | skip
  | bad (e : String)

/-- The first candidate content shape probed at app.py 66-78. -/
inductive Content where
  | cstr (s : String)
  | clist (ps : List Part)
  | other
  | noAttr

/-- The probes `safe_generate` performs on a response object.  `text` is
the `resp.text` probe (`some s` when present and a string), `candidates`
is the `resp.candidates` probe (`none` when absent or falsy), `strRepr` is
`str(resp)`; each may raise. -/
structure GenResp where
  text : Except String (Option String)
  candidates : Except String (Option Content)
  strRepr : Except String String

/-- Collect the contributed parts; an exceptional part aborts the block
(app.py 71-78). -/
def collectParts : List Part → Except String (List String)
  | [] => Except.ok []
  | Part.text s :: rest => (collectParts rest).map (fun l => s :: l)
  | Part.skip :: rest => collectParts rest
  | Part.bad e :: _ => Except.error e

/-- The candidates block of app.py 61-80, before its try/except. -/
def candidatesProbe (resp : GenResp) : Except String (Option String) :=
  match resp.candidates with
  | Except.error e => Except.error e
  | Except.ok none => Except.ok none
  | Except.ok (some (Content.cstr s)) => Except.ok (some s)
  | Except.ok (some (Content.clist ps)) =>
    match collectParts ps with
    | Except.error e => Except.error e
    | Except.ok parts =>
      if parts.isEmpty then Except.ok none
      else Except.ok (some (String.join parts))
  | Except.ok (some Content.other) => Except.ok none
  | Except.ok (some Content.noAttr) => Except.ok none

/-- Models `safe_generate` (app.py 46-86): the argument is the outcome of
`model.generate_content`; the result is `.ok (some s)` when a string is
returned, `.ok none` when `None` is returned, and `.error` would be an
exception escaping the adapter. -/
def safe_generate (gen : Except String GenResp) : Except String (Option String) :=
  match gen with
  | Except.error _ => Except.ok none
  | Except.ok resp =>
    match resp.text with
    | Except.ok (some s) => Except.ok (some s)
    | _ =>
      match candidatesProbe resp with
      | Except.ok (some s) => Except.ok (some s)
      | _ =>
        match resp.strRepr with
        | Except.ok s => Except.ok (some s)
        | Except.error _ => Except.ok none

/-!
The per-file task `analyze_code_file` (app.py 181-246).  The file system
and the generation service are oracles in a `FileWorld`; the prompt text
itself (app.py 203-218) influences nothing observable here, so the
generation outcome is the per-file oracle `ai` (the value `safe_generate`
returned: `none` for `None`, `some t` for a string `t`).
-/

/-- Environment of one per-file task: `size` is `os.path.getsize`, `read1`
the first `open(...).read()`, `read2` the retry read in the except branch,
`ai` the `safe_generate` result, `loads` the JSON library. -/
structure FileWorld where
  size : Except String Nat
  read1 : Except String String
  read2 : Except String String
  ai : Option String
  loads : String → Except String JVal

/-- Outcome of one per-file task: the produced record, how many
generation-service calls were made, and how many file reads were
attempted. -/
structure AnalyzeOut where
  record : Dict
  genCalls : Nat
  reads : Nat

/-- The record returned for an oversized file (app.py 188-194). -/
def skippedRecord (file_path : String) : Dict :=
  [("file_name", JVal.str (basename file_path)),
   ("overall_score", JVal.null),
   ("key_issues", JVal.arr [JVal.str "File too large to analyze"]),
   ("recommendations", JVal.arr [JVal.str "Analyze large files locally or increase limit"]),
   ("analysis_source", JVal.str "skipped")]

/-- The record returned when even the retry read fails (app.py 241-246).
Note: the source sets no `analysis_source` key on this record. -/
def readErrorRecord (file_path : String) (e : String) : Dict :=
  [("file_name", JVal.str (basename file_path)),
   ("overall_score", JVal.null),
   ("key_issues", JVal.arr [JVal.str ("Error analyzing file: " ++ e)]),
   ("recommendations", JVal.arr [])]

/-- The schema keys the task back-fills on a parsed AI object (app.py 225). -/
def requiredKeys : List String :=
  ["file_name", "correctness_score", "efficiency_score", "best_practices_score",
   "overall_score", "key_issues", "recommendations"]

/-- Models `k.endswith(suffix)`. -/
def pyEndsWith (s : String) (suffix : String) : Bool :=
  suffix.toList.isSuffixOf s.toList

/-- Missing-key back-fill (app.py 225-227): `None` for `*_score` keys,
an empty list otherwise. -/
def fillDefaults (d : Dict) : Dict :=
  requiredKeys.foldl
    (fun acc k =>
      if (dictLookup acc k).isSome then acc
      else dictSet acc k (if pyEndsWith k "_score" then JVal.null else JVal.arr []))
    d

/-- The size ceiling `500 * 1024` bytes (app.py 187). -/
def sizeCeiling : Nat := 500 * 1024

/-- The except branch of `analyze_code_file` (app.py 234-246): re-read and
run the heuristic; if even that read fails, return the error record. -/
def exceptBranch (w : FileWorld) (file_path : String) (e : String)
    (genCalls : Nat) : AnalyzeOut :=
  match w.read2 with
  | Except.ok code => ⟨heuristic_analyze code file_path, genCalls, 2⟩
  | Except.error _ => ⟨readErrorRecord file_path e, genCalls, 2⟩

/-- The read / prompt / extract part of `analyze_code_file` (app.py
198-232), reached when the size check does not skip.  An extraction
exception would reach the outer except (app.py 234), which re-reads and
falls back. -/
def mainPath (w : FileWorld) (file_path : String) : AnalyzeOut :=
  match w.read1 with
  | Except.error e => exceptBranch w file_path e 0
  | Except.ok code =>
    match w.ai with
    | none => ⟨heuristic_analyze code file_path, 1, 1⟩
    | some t =>
      if t = "" then ⟨heuristic_analyze code file_path, 1, 1⟩
      else
        match extract_json_from_text w.loads (some t) with
        | Except.error e => exceptBranch w file_path e 1
        | Except.ok parsed =>
          match parsed with
          | some (JVal.obj kvs) =>
            if kvs.isEmpty then ⟨heuristic_analyze code file_path, 1, 1⟩
            else ⟨dictSet (fillDefaults kvs) "analysis_source" (JVal.str "ai"), 1, 1⟩
          | _ => ⟨heuristic_analyze code file_path, 1, 1⟩

/-- Models `analyze_code_file` (app.py 181-246).  The size probe failing is
swallowed by the inner try (app.py 195-196), in which case analysis
proceeds. -/
def analyze_code_file (w : FileWorld) (file_path : String) : AnalyzeOut :=
  match w.size with
  | Except.ok n =>
    if n > sizeCeiling then ⟨skippedRecord file_path, 0, 0⟩
    else mainPath w file_path
  | Except.error _ => mainPath w file_path

/-!
The dispatcher loop of `analyze_repo` (app.py 352-370): tasks are
submitted for every candidate file, and results are appended in the order
`as_completed` yields the futures.  `outcome i` is what `fut.result()`
does for the i-th file (a record, or a raised exception), and `order` is
the completion order of the futures, a permutation of the task indices.
-/

/-- The record built when `fut.result()` raises (app.py 360-367). -/
def dispatchErrorRecord (path : String) (e : String) : Dict :=
  [("file_name", JVal.str (basename path)),
   ("overall_score", JVal.null),
   ("key_issues", JVal.arr [JVal.str ("Unhandled error: " ++ e)]),
   ("recommendations", JVal.arr []),
   ("analysis_source", JVal.str "error")]

/-- The record appended for the i-th task (app.py 357-368). -/
def taskRecord (paths : List String) (outcome : Nat → Except String Dict)
    (i : Nat) : Dict :=
  match outcome i with
  | Except.ok r => r
  | Except.error e => dispatchErrorRecord (paths.getD i "") e

/-- The `report_data` list accumulated by the `as_completed` loop
(app.py 355-368): one record per completed future, in completion order. -/
def collectResults (paths : List String) (outcome : Nat → Except String Dict)
    (order : List Nat) : List Dict :=
  order.map (taskRecord paths outcome)

/-!
The repository summary `make_repo_summary` (app.py 249-284).
-/

/-- Python truthiness of a parsed JSON value. -/
def jTruthy : JVal → Bool
  | JVal.null => false
  | JVal.jbool b => b
  | JVal.num q => q ≠ 0
  | JVal.str s => s ≠ ""
  | JVal.arr xs => !xs.isEmpty
  | JVal.obj kvs => !kvs.isEmpty

/-- Python `k in parsed` on a parsed JSON value: key membership for a
dict, element equality for a list, substring for a string; a `TypeError`
(modelled as `.error`) for the other shapes. -/
def jHasKey (v : JVal) (k : String) : Except String Bool :=
  match v with
  | JVal.obj kvs => Except.ok (kvs.any (fun p => p.1 == k))
  | JVal.arr xs => Except.ok (xs.any (fun x => match x with
      | JVal.str s => s == k
      | _ => false))
  | JVal.str s => Except.ok (pyIn k s)
  | _ => Except.error "argument of type is not iterable"

/-- The numeric value the summary fallback reads from a record:
`r.get("overall_score")` passed through `isinstance(s, (int, float))`
(a Python bool is an int, so it counts, as 0 or 1). -/
def scoreOf (r : Dict) : Option ℚ :=
  match dictLookup r "overall_score" with
  | some (JVal.num q) => some q
  | some (JVal.jbool b) => some (if b then 1 else 0)
  | _ => none

/-- The present scores of a record list (app.py 267). -/
def presentScores (rs : List Dict) : List ℚ := rs.filterMap scoreOf

/-- `float(np.mean(scores)) if scores else 0.0` (app.py 268). -/
def repoAvg (rs : List Dict) : ℚ :=
  let scores := presentScores rs
  if scores.isEmpty then 0 else scores.sum / scores.length

/-- `sum(1 for s in scores if s < 50)` (app.py 269). -/
def lowCount (rs : List Dict) : Nat :=
  ((presentScores rs).filter (fun s => s < 50)).length

/-- The verdict thresholds (app.py 271-276). -/
def verdictOf (avg : ℚ) : String :=
  if avg ≥ 80 then "Good" else if avg ≥ 50 then "Moderate" else "Poor"

/-- Floor of a rational, computed explicitly so that concrete values
reduce. -/
def qfloor (q : ℚ) : Int := q.num.fdiv q.den

/-- Round half to even at integer precision, as `%.1f` formatting does on
the scaled value. -/
def roundHalfEven (q : ℚ) : Int :=
  let f := qfloor q
  if q - f = 1/2 then (if f % 2 = 0 then f else f + 1) else qfloor (q + 1/2)

/-- Decimal rendering of `%.1f` applied to a rational (the float rounding
of the source is modelled as exact rational rounding, half to even). -/
def fmt1 (q : ℚ) : String :=
  let n := roundHalfEven (q * 10)
  if n < 0 then "-" ++ toString ((-n) / 10) ++ "." ++ toString ((-n) % 10)
  else toString (n / 10) ++ "." ++ toString (n % 10)

/-- The narrative string of the deterministic fallback (app.py 278-282). -/
def fallbackNarrative (rs : List Dict) : String :=
  "Average file score " ++ fmt1 (repoAvg rs) ++ "%. " ++
    toString (lowCount rs) ++ "/" ++ toString rs.length ++
    " file(s) scored below 50%. " ++
    (if lowCount rs > 0 then "Recommend fixing issues in low-scoring files and adding tests."
     else "Repository appears generally healthy; run full test suite to confirm.")

/-- The deterministic fallback summary (app.py 266-284). -/
def fallbackSummary (rs : List Dict) : Dict :=
  [("verdict", JVal.str (verdictOf (repoAvg rs))),
   ("summary", JVal.str (fallbackNarrative rs))]

/-- Models `make_repo_summary` (app.py 249-284): `ai` is the
`safe_generate` result for the summary prompt; a parsed value whose `in`
tests raise propagates the exception (the source has no try/except around
them). -/
def make_repo_summary (ai : Option String)
    (loads : String → Except String JVal) (rs : List Dict) :
    Except String JVal :=
  let aiResult : Except String (Option JVal) :=
    match ai with
    | none => Except.ok none
    | some t =>
      if t = "" then Except.ok none
      else extract_json_from_text loads (some t)
  match aiResult with
  | Except.error e => Except.error e
  | Except.ok none => Except.ok (JVal.obj (fallbackSummary rs))
  | Except.ok (some parsed) =>
    if jTruthy parsed then
      match jHasKey parsed "verdict" with
      | Except.error e => Except.error e
      | Except.ok hv =>
        match jHasKey parsed "summary" with
        | Except.error e => Except.error e
        | Except.ok hs =>
          if hv && hs then Except.ok parsed
          else Except.ok (JVal.obj (fallbackSummary rs))
    else Except.ok (JVal.obj (fallbackSummary rs))

/-!  Concrete fixtures used to instantiate the theorems. -/

/-- A tiny concrete `json.loads` oracle: parses the one-key object
`{"a": 1}` and raises on everything else. -/
def loadsOracle : String → Except String JVal := fun s =>
  if s = "\x7b\"a\": 1\x7d" then Except.ok (JVal.obj [("a", JVal.num 1)])
  else Except.error "invalid json"

/-- A world where the generation service returns a valid JSON object that
lacks every score field. -/
def worldAiNoScore : FileWorld :=
  { size := Except.ok 10, read1 := Except.ok "x = 1", read2 := Except.ok "x = 1",
    ai := some "\x7b\"a\": 1\x7d", loads := loadsOracle }

/-- A world where the size probe and both reads raise. -/
def worldUnreadable : FileWorld :=
  { size := Except.error "stat failed", read1 := Except.error "unreadable",
    read2 := Except.error "unreadable", ai := none, loads := loadsOracle }

/-- A world whose file weighs 600000 bytes, above the 512000-byte ceiling. -/
def worldOversized : FileWorld :=
  { size := Except.ok 600000, read1 := Except.ok "x", read2 := Except.ok "x",
    ai := none, loads := loadsOracle }

/-- A world where the generation service is down (`safe_generate` returned
`None`), so analysis falls back to the heuristic. -/
def worldHeuristic : FileWorld :=
  { size := Except.ok 10, read1 := Except.ok "x = 1", read2 := Except.ok "x = 1",
    ai := none, loads := loadsOracle }

/-- A three-line snippet with two nested `for` loops. -/
def nestedCode : String := "for a in b:\n for c in d:\n  x = 1"

/-- A record carrying just an overall score. -/
def scoreRec (q : ℚ) : Dict := [("overall_score", JVal.num q)]

/-- Dispatcher outcome fixture: every task succeeds, with a record naming
its index. -/
def outcomeByIndex : Nat → Except String Dict := fun i =>
  Except.ok [("i", JVal.str (if i = 0 then "a" else "b"))]

/-- Dispatcher outcome fixture: the first task raises, the second
succeeds. -/
def outcomeWithFailure : Nat → Except String Dict := fun i =>
  if i = 0 then Except.error "boom" else Except.ok [("i", JVal.str "b")]

/-!  Helper lemmas about dict lookup and update. -/

theorem dictLookup_cons (p : String × JVal) (t : Dict) (k : String) :
    dictLookup (p :: t) k = if p.1 == k then some p.2 else dictLookup t k := by
  unfold dictLookup
  cases hp : (p.1 == k) with
  | true => simp [List.find?, hp]
  | false => simp [List.find?, hp]

theorem lookup_map_set (k : String) (v : JVal) :
    ∀ d : Dict, d.any (fun p => p.1 == k) = true →
      dictLookup (d.map (fun p => if p.1 == k then (k, v) else p)) k = some v := by
  intro d h
  induction d with
  | nil => simp at h
  | cons p t ih =>
    cases hp : (p.1 == k) with
    | true =>
      have hpe : p.1 = k := by simpa using hp
      simp [List.map_cons, dictLookup_cons, hpe]
    | false =>
      have ht : t.any (fun p => p.1 == k) = true := by
        simp only [List.any_cons, hp, Bool.false_or] at h
        exact h
      simp only [List.map_cons, hp, Bool.false_eq_true, if_false, dictLookup_cons]
      exact ih ht

theorem lookup_append_set (k : String) (v : JVal) :
    ∀ d : Dict, d.any (fun p => p.1 == k) = false →
      dictLookup (d ++ [(k, v)]) k = some v := by
  intro d h
  induction d with
  | nil => simp [dictLookup, List.find?]
  | cons p t ih =>
    simp only [List.any_cons, Bool.or_eq_false_iff] at h
    simp only [List.cons_append, dictLookup_cons, h.1, Bool.false_eq_true, if_false]
    exact ih h.2

theorem dictLookup_dictSet_self (d : Dict) (k : String) (v : JVal) :
    dictLookup (dictSet d k v) k = some v := by
  unfold dictSet
  cases h : d.any (fun p => p.1 == k) with
  | true =>
    rw [if_pos rfl]
    exact lookup_map_set k v d h
  | false =>
    rw [if_neg Bool.false_ne_true]
    exact lookup_append_set k v d h

/-!  Shape analysis of the per-file task: every run ends in one of four
record shapes (heuristic, skipped, read-error, AI-tagged). -/

theorem mainPath_cases (w : FileWorld) (path : String) :
    (∃ code, (mainPath w path).record = heuristic_analyze code path) ∨
    (∃ e, (mainPath w path).record = readErrorRecord path e) ∨
    (∃ kvs : Dict, kvs.isEmpty = false ∧
      (mainPath w path).record = dictSet (fillDefaults kvs) "analysis_source" (JVal.str "ai")) := by
  unfold mainPath exceptBranch
  cases hr : w.read1 with
  | error e =>
    cases hr2 : w.read2 with
    | ok code => exact Or.inl ⟨code, rfl⟩
    | error e2 => exact Or.inr (Or.inl ⟨e, rfl⟩)
  | ok code =>
    dsimp only
    cases ha : w.ai with
    | none => exact Or.inl ⟨code, rfl⟩
    | some t =>
      dsimp only
      by_cases ht : t = ""
      · rw [if_pos ht]
        exact Or.inl ⟨code, rfl⟩
      · rw [if_neg ht]
        cases hx : extract_json_from_text w.loads (some t) with
        | error e =>
          cases hr2 : w.read2 with
          | ok code2 => exact Or.inl ⟨code2, rfl⟩
          | error e2 => exact Or.inr (Or.inl ⟨e, rfl⟩)
        | ok parsed =>
          cases parsed with
          | none => exact Or.inl ⟨code, rfl⟩
          | some v =>
            cases v with
            | obj kvs =>
              dsimp only
              cases hk : kvs.isEmpty with
              | true =>
                rw [if_pos rfl]
                exact Or.inl ⟨code, rfl⟩
              | false =>
                rw [if_neg Bool.false_ne_true]
                exact Or.inr (Or.inr ⟨kvs, hk, rfl⟩)
            | null => exact Or.inl ⟨code, rfl⟩
            | jbool b => exact Or.inl ⟨code, rfl⟩
            | num q => exact Or.inl ⟨code, rfl⟩
            | str s => exact Or.inl ⟨code, rfl⟩
            | arr xs => exact Or.inl ⟨code, rfl⟩

theorem analyze_cases (w : FileWorld) (path : String) :
    (∃ code, (analyze_code_file w path).record = heuristic_analyze code path) ∨
    (analyze_code_file w path).record = skippedRecord path ∨
    (∃ e, (analyze_code_file w path).record = readErrorRecord path e) ∨
    (∃ kvs : Dict, kvs.isEmpty = false ∧
      (analyze_code_file w path).record = dictSet (fillDefaults kvs) "analysis_source" (JVal.str "ai")) := by
  unfold analyze_code_file
  cases hs : w.size with
  | error e =>
    dsimp only
    rcases mainPath_cases w path with h | h | h
    · exact Or.inl h
    · exact Or.inr (Or.inr (Or.inl h))
    · exact Or.inr (Or.inr (Or.inr h))
  | ok n =>
    dsimp only
    by_cases hn : n > sizeCeiling
    · rw [if_pos hn]
      exact Or.inr (Or.inl rfl)
    · rw [if_neg hn]
      rcases mainPath_cases w path with h | h | h
      · exact Or.inl h
      · exact Or.inr (Or.inr (Or.inl h))
      · exact Or.inr (Or.inr (Or.inr h))

/-!  Per-shape lookup facts. -/

theorem heuristic_source (code file_name : String) :
    dictLookup (heuristic_analyze code file_name) "analysis_source" =
      some (JVal.str "heuristic") := rfl

theorem heuristic_score (code file_name : String) :
    scoreOf (heuristic_analyze code file_name) = some ((overallScore code : ℚ)) := rfl

theorem skipped_source (path : String) :
    dictLookup (skippedRecord path) "analysis_source" = some (JVal.str "skipped") := rfl

theorem skipped_score (path : String) : scoreOf (skippedRecord path) = none := rfl

theorem readError_source (path e : String) :
    dictLookup (readErrorRecord path e) "analysis_source" = none := rfl

theorem readError_score (path e : String) : scoreOf (readErrorRecord path e) = none := rfl

/-- Claim C1 (code bug): the claim says `analysis_source` is present on
every record, but when the size probe and both reads raise, the per-file
task returns the app.py 241-246 record, which carries no `analysis_source`
key at all (unlike the dispatcher error record of app.py 360-367). -/
theorem c1_error_record_missing_source :
    (analyze_code_file worldUnreadable "f.py").record = readErrorRecord "f.py" "unreadable" ∧
    dictLookup (analyze_code_file worldUnreadable "f.py").record "analysis_source" = none :=
  ⟨rfl, rfl⟩

/-- Claim C2 (counterexample): a pipeline record can have
`analysis_source = "ai"` (the generated tag) while `overall_score` is
absent — the generation service returned the valid JSON object `{"a": 1}`
with no score fields, which the task back-fills with nulls. -/
theorem c2_counterexample :
    dictLookup (analyze_code_file worldAiNoScore "d/f.py").record "analysis_source" =
      some (JVal.str "ai") ∧
    scoreOf (analyze_code_file worldAiNoScore "d/f.py").record = none := ⟨rfl, rfl⟩

/-- Claim C2 (amended): a numeric `overall_score` is always present on
heuristic records, always absent on skipped records, on the read-error
record (which lacks the source tag), and on dispatcher error records; a
present score implies the source tag is `"ai"` (generated) or
`"heuristic"` — but a generated record may lack the score. -/
theorem c2_amended (w : FileWorld) (path : String) :
    (dictLookup (analyze_code_file w path).record "analysis_source" = some (JVal.str "heuristic") →
      (scoreOf (analyze_code_file w path).record).isSome = true) ∧
    (dictLookup (analyze_code_file w path).record "analysis_source" = some (JVal.str "skipped") →
      scoreOf (analyze_code_file w path).record = none) ∧
    (dictLookup (analyze_code_file w path).record "analysis_source" = none →
      scoreOf (analyze_code_file w path).record = none) ∧
    ((scoreOf (analyze_code_file w path).record).isSome = true →
      dictLookup (analyze_code_file w path).record "analysis_source" = some (JVal.str "ai") ∨
      dictLookup (analyze_code_file w path).record "analysis_source" = some (JVal.str "heuristic")) ∧
    (∀ p e, scoreOf (dispatchErrorRecord p e) = none) := by
  rcases analyze_cases w path with ⟨code, hrec⟩ | hrec | ⟨e, hrec⟩ | ⟨kvs, hk, hrec⟩ <;>
    rw [hrec]
  · exact ⟨fun _ => rfl,
      fun h => by rw [heuristic_source] at h; simp at h,
      fun h => by rw [heuristic_source] at h; simp at h,
      fun _ => Or.inr (heuristic_source code path),
      fun _ _ => rfl⟩
  · exact ⟨fun h => by rw [skipped_source] at h; simp at h,
      fun _ => skipped_score path,
      fun h => by rw [skipped_source] at h; simp at h,
      fun h => by rw [skipped_score] at h; simp at h,
      fun _ _ => rfl⟩
  · exact ⟨fun h => by rw [readError_source] at h; simp at h,
      fun h => by rw [readError_source] at h; simp at h,
      fun _ => readError_score path e,
      fun h => by rw [readError_score] at h; simp at h,
      fun _ _ => rfl⟩
  · exact ⟨fun h => by rw [dictLookup_dictSet_self] at h; simp at h,
      fun h => by rw [dictLookup_dictSet_self] at h; simp at h,
      fun h => by rw [dictLookup_dictSet_self] at h; simp at h,
      fun _ => Or.inl (dictLookup_dictSet_self _ _ _),
      fun _ _ => rfl⟩

/-- Claim C2 (witness): in the world where the generation service is down,
the record is heuristic and its score is present. -/
theorem c2_amended_witness :
    dictLookup (analyze_code_file worldHeuristic "f.py").record "analysis_source" =
      some (JVal.str "heuristic") ∧
    (scoreOf (analyze_code_file worldHeuristic "f.py").record).isSome = true :=
  ⟨rfl, (c2_amended worldHeuristic "f.py").1 rfl⟩

/-- Claim C3 (counterexample): with two input paths and completion order
[1, 0] (a permutation of the task indices), the emitted sequence differs
from the input-ordered sequence — the `as_completed` loop appends in
completion order. -/
theorem c3_counterexample :
    List.Perm [1, 0] (List.range 2) ∧
    collectResults ["a", "b"] outcomeByIndex [1, 0] ≠
      (List.range 2).map (taskRecord ["a", "b"] outcomeByIndex) := by
  constructor
  · exact List.Perm.swap 0 1 []
  · intro h
    simp [collectResults, taskRecord, outcomeByIndex, List.range_succ] at h

/-- Claim C3 (amended): the dispatcher emits the records in completion
order, not input order; the emitted sequence is a permutation of the
input-ordered per-path records whenever the completion order is a
permutation of the task indices. -/
theorem c3_amended (paths : List String) (outcome : Nat → Except String Dict)
    (order : List Nat) (h : order.Perm (List.range paths.length)) :
    (collectResults paths outcome order).Perm
      ((List.range paths.length).map (taskRecord paths outcome)) :=
  h.map (taskRecord paths outcome)

/-- Claim C3 (witness): the permutation guarantee at a concrete completion
order. -/
theorem c3_amended_witness :
    List.Perm ([1, 0] : List Nat) (List.range 2) ∧
    (collectResults ["c", "d"] outcomeByIndex [1, 0]).Perm
      ((List.range 2).map (taskRecord ["c", "d"] outcomeByIndex)) :=
  ⟨List.Perm.swap 0 1 [], c3_amended ["c", "d"] outcomeByIndex [1, 0] (List.Perm.swap 0 1 [])⟩

/-- Claim C4: the dispatcher emits exactly one record per input path —
output length equals input length — and retains every task outcome; a task
that raises contributes its error record rather than being dropped. -/
theorem c4_dispatcher_total (paths : List String) (outcome : Nat → Except String Dict)
    (order : List Nat) (h : order.Perm (List.range paths.length)) :
    (collectResults paths outcome order).length = paths.length ∧
    (∀ i, i < paths.length → taskRecord paths outcome i ∈ collectResults paths outcome order) ∧
    (∀ i e, i < paths.length → outcome i = Except.error e →
      dispatchErrorRecord (paths.getD i "") e ∈ collectResults paths outcome order) := by
  refine ⟨?_, ?_, ?_⟩
  · rw [collectResults, List.length_map, h.length_eq, List.length_range]
  · intro i hi
    exact List.mem_map_of_mem _ (h.mem_iff.mpr (List.mem_range.mpr hi))
  · intro i e hi he
    have hm := List.mem_map_of_mem (taskRecord paths outcome)
      (h.mem_iff.mpr (List.mem_range.mpr hi))
    rw [show taskRecord paths outcome i = dispatchErrorRecord (paths.getD i "") e by
      unfold taskRecord; rw [he]] at hm
    exact hm

/-- Claim C4 (witness): with one failing task out of two, the output still
has length two and contains the error record for the failed file. -/
theorem c4_dispatcher_total_witness :
    List.Perm ([1, 0] : List Nat) (List.range 2) ∧
    (collectResults ["a", "b"] outcomeWithFailure [1, 0]).length = 2 ∧
    dispatchErrorRecord "a" "boom" ∈ collectResults ["a", "b"] outcomeWithFailure [1, 0] := by
  have hp : List.Perm ([1, 0] : List Nat) (List.range 2) := List.Perm.swap 0 1 []
  obtain ⟨h1, _, h3⟩ := c4_dispatcher_total ["a", "b"] outcomeWithFailure [1, 0] hp
  exact ⟨hp, h1, h3 0 "boom" (by norm_num) rfl⟩

/-- Claim C5 (counterexample): on a nested-loop snippet the base is 55 and
the emitted efficiency score is 45 = base − 10, not base − 15 = 40 as the
claim states (the source subtracts 10 at app.py 145; the −15 belongs to
the base adjustment at app.py 138). -/
theorem c5_counterexample :
    nestedLoop nestedCode = true ∧
    heuristicBase nestedCode = 55 ∧
    dictLookup (heuristic_analyze nestedCode "f.py") "efficiency_score" =
      some (JVal.num 45) ∧
    clampScore (heuristicBase nestedCode - 15) = 40 ∧
    (45 : ℚ) ≠ 40 :=
  ⟨by decide, by decide, rfl, by decide, by norm_num⟩

/-- Claim C5 (amended): the heuristic sub-scores are `base − 5` for
correctness, `base − 10` (nested loop) or `base − 5` for efficiency,
`base + 5` (doc markers) or `base` for best practices, each clamped to
[5, 100]. -/
theorem c5_amended (code file_name : String) :
    dictLookup (heuristic_analyze code file_name) "correctness_score" =
      some (JVal.num (clampScore (heuristicBase code - 5))) ∧
    dictLookup (heuristic_analyze code file_name) "efficiency_score" =
      some (JVal.num (clampScore (heuristicBase code - (if nestedLoop code then 10 else 5)))) ∧
    dictLookup (heuristic_analyze code file_name) "best_practices_score" =
      some (JVal.num (clampScore (heuristicBase code + (if docMarkers code then 5 else 0)))) ∧
    (∀ x : Int, 5 ≤ clampScore x ∧ clampScore x ≤ 100) :=
  ⟨rfl, rfl, rfl, fun x => by unfold clampScore; omega⟩

/-- Claim C6: the heuristic analyzer is deterministic — it is a pure
function of the code string and file name alone (no randomness or clock
input appears in its embedding), so repeated calls on identical input
yield identical records. -/
theorem c6_heuristic_deterministic (code file_name : String) :
    heuristic_analyze code file_name = heuristic_analyze code file_name := rfl

/-- Claim C7: the response extractor is total at its boundary — for every
`json.loads` behavior and every input, it returns a value (`.ok`), never a
propagated exception. -/
theorem c7_extract_total (loads : String → Except String JVal) (text : Option String) :
    ∃ r, extract_json_from_text loads text = Except.ok r := by
  unfold extract_json_from_text
  rcases text with _ | t
  · exact ⟨none, rfl⟩
  · dsimp only
    by_cases ht : t = ""
    · rw [if_pos ht]
      exact ⟨none, rfl⟩
    · rw [if_neg ht]
      repeat' split
      all_goals exact ⟨_, rfl⟩

/-- Claim C8: a file above the size ceiling yields the skipped record with
no score, zero reads, and zero generation-service calls. -/
theorem c8_skip_oversized (w : FileWorld) (path : String) (n : Nat)
    (hs : w.size = Except.ok n) (hn : n > sizeCeiling) :
    analyze_code_file w path = ⟨skippedRecord path, 0, 0⟩ ∧
    dictLookup (skippedRecord path) "analysis_source" = some (JVal.str "skipped") ∧
    scoreOf (skippedRecord path) = none := by
  refine ⟨?_, rfl, rfl⟩
  unfold analyze_code_file
  rw [hs]
  dsimp only
  rw [if_pos hn]

/-- Claim C8 (witness): a 600000-byte file is skipped. -/
theorem c8_skip_oversized_witness :
    worldOversized.size = Except.ok 600000 ∧ 600000 > sizeCeiling ∧
    (analyze_code_file worldOversized "f.py" = ⟨skippedRecord "f.py", 0, 0⟩ ∧
     dictLookup (skippedRecord "f.py") "analysis_source" = some (JVal.str "skipped") ∧
     scoreOf (skippedRecord "f.py") = none) :=
  ⟨rfl, by decide, c8_skip_oversized worldOversized "f.py" 600000 rfl (by decide)⟩

/-- Claim C9: the deterministic fallback summary averages the present
overall scores (0 for an empty set), grades Good at 80, Moderate at 50,
else Poor, and its narrative states the average, the below-50 count, and
one of two fixed recommendation sentences chosen by whether that count is
zero; scores [90, 85, 95] average 90 and grade Good, scores [40, 45]
average 42.5 and grade Poor with the low-score sentence. -/
theorem c9_fallback_summary :
    (∀ rs : List Dict,
      dictLookup (fallbackSummary rs) "verdict" =
        some (JVal.str (if repoAvg rs ≥ 80 then "Good"
          else if repoAvg rs ≥ 50 then "Moderate" else "Poor")) ∧
      dictLookup (fallbackSummary rs) "summary" =
        some (JVal.str ("Average file score " ++ fmt1 (repoAvg rs) ++ "%. " ++
          toString (lowCount rs) ++ "/" ++ toString rs.length ++
          " file(s) scored below 50%. " ++
          (if lowCount rs > 0 then "Recommend fixing issues in low-scoring files and adding tests."
           else "Repository appears generally healthy; run full test suite to confirm.")))) ∧
    repoAvg [scoreRec 90, scoreRec 85, scoreRec 95] = 90 ∧
    dictLookup (fallbackSummary [scoreRec 90, scoreRec 85, scoreRec 95]) "verdict" =
      some (JVal.str "Good") ∧
    repoAvg [scoreRec 40, scoreRec 45] = 42.5 ∧
    dictLookup (fallbackSummary [scoreRec 40, scoreRec 45]) "verdict" =
      some (JVal.str "Poor") ∧
    dictLookup (fallbackSummary [scoreRec 40, scoreRec 45]) "summary" =
      some (JVal.str "Average file score 42.5%. 2/2 file(s) scored below 50%. Recommend fixing issues in low-scoring files and adding tests.") ∧
    repoAvg ([] : List Dict) = 0 ∧
    dictLookup (fallbackSummary ([] : List Dict)) "verdict" = some (JVal.str "Poor") := by
  have havg1 : repoAvg [scoreRec 90, scoreRec 85, scoreRec 95] = 90 := by
    norm_num [repoAvg, presentScores, scoreOf, scoreRec, dictLookup, List.find?, List.filterMap]
  have havg2 : repoAvg [scoreRec 40, scoreRec 45] = 42.5 := by
    norm_num [repoAvg, presentScores, scoreOf, scoreRec, dictLookup, List.find?, List.filterMap]
  have hnarr : fallbackNarrative [scoreRec 40, scoreRec 45] =
      "Average file score 42.5%. 2/2 file(s) scored below 50%. Recommend fixing issues in low-scoring files and adding tests." := by
    norm_num [fallbackNarrative, fmt1, roundHalfEven, qfloor, repoAvg, lowCount,
      presentScores, scoreOf, scoreRec, dictLookup, List.find?, List.filterMap]
    decide
  refine ⟨fun rs => ⟨rfl, rfl⟩, havg1, ?_, havg2, ?_, ?_, rfl, ?_⟩
  · rw [show dictLookup (fallbackSummary [scoreRec 90, scoreRec 85, scoreRec 95]) "verdict" =
        some (JVal.str (verdictOf (repoAvg [scoreRec 90, scoreRec 85, scoreRec 95]))) from rfl,
      havg1]
    norm_num [verdictOf]
  · rw [show dictLookup (fallbackSummary [scoreRec 40, scoreRec 45]) "verdict" =
        some (JVal.str (verdictOf (repoAvg [scoreRec 40, scoreRec 45]))) from rfl,
      havg2]
    norm_num [verdictOf]
  · rw [show dictLookup (fallbackSummary [scoreRec 40, scoreRec 45]) "summary" =
        some (JVal.str (fallbackNarrative [scoreRec 40, scoreRec 45])) from rfl,
      hnarr]
  · rw [show dictLookup (fallbackSummary ([] : List Dict)) "verdict" =
        some (JVal.str (verdictOf (repoAvg ([] : List Dict)))) from rfl,
      show repoAvg ([] : List Dict) = 0 from rfl]
    norm_num [verdictOf]

/-- Claim C10: the generation-service adapter is total at its boundary —
for every service outcome and response shape (including raising probes),
`safe_generate` returns a value (a string or `None`), never a propagated
exception. -/
theorem c10_safe_generate_total (gen : Except String GenResp) :
    ∃ r, safe_generate gen = Except.ok r := by
  unfold safe_generate
  repeat' split
  all_goals exact ⟨_, rfl⟩

end RepoAnalyzer
